import Mathlib

/-!
Verification of the AutoFilm crawl/sign/materialize pipeline (src/autofilm.py).

The development shallowly embeds the program:
* `sign` embeds `AutoFilm._sign` (src/autofilm.py:194-200), on top of
  executable models of the Python stdlib collaborators `hashlib.sha256`,
  `hmac.new` and `base64.urlsafe_b64encode` (FIPS 180-4 / RFC 2104 /
  RFC 4648, validated below on published test vectors).
* `classify`, `mapOutputPath`, `withStrm`, `extractAbs` and `fileProcess`
  embed `AutoFilm._file_process` (src/autofilm.py:130-192); Python string
  and `pathlib` operations (`str.replace`, `str.endswith`, `str.lower`,
  `Path.__truediv__`, `Path.with_suffix`, `str.index`) are modelled on
  `List Char`, faithful to CPython semantics for the inputs in scope.
* `parseServer` and `runServers` embed the per-server loop of
  `AutoFilm.run` (src/autofilm.py:69-105); the behaviour of the external
  `AlistFileSystem.login`/`chdir`/`rglob` collaborator (raises or not) is
  an oracle parameter.
* `loadSettings` embeds the policy part of `AutoFilm.__init__`
  (src/autofilm.py:54-62).

An entry's materialization is modelled as an `Action` (what the task does)
together with `runAction` (what lands on disk given the HTTP response),
mirroring src/autofilm.py:158-192.
-/

namespace AutoFilm

/-! ### SHA-256 (model of `hashlib.sha256`, FIPS 180-4) -/

/-- Word size modulus for 32-bit arithmetic. -/
def M32 : Nat := 4294967296

/-- Right rotation of a 32-bit word. -/
def rotr (n x : Nat) : Nat := ((x >>> n) ||| (x <<< (32 - n))) % M32

/-- SHA-256 round constants. -/
def shaK : List Nat :=
  [1116352408, 1899447441, 3049323471, 3921009573, 961987163, 1508970993,
   2453635748, 2870763221, 3624381080, 310598401, 607225278, 1426881987,
   1925078388, 2162078206, 2614888103, 3248222580, 3835390401, 4022224774,
   264347078, 604807628, 770255983, 1249150122, 1555081692, 1996064986,
   2554220882, 2821834349, 2952996808, 3210313671, 3336571891, 3584528711,
   113926993, 338241895, 666307205, 773529912, 1294757372, 1396182291,
   1695183700, 1986661051, 2177026350, 2456956037, 2730485921, 2820302411,
   3259730800, 3345764771, 3516065817, 3600352804, 4094571909, 275423344,
   430227734, 506948616, 659060556, 883997877, 958139571, 1322822218,
   1537002063, 1747873779, 1955562222, 2024104815, 2227730452, 2361852424,
   2428436474, 2756734187, 3204031479, 3329325298]

/-- Working state of the compression function: eight 32-bit words. -/
structure Hash8 where
  a : Nat
  b : Nat
  c : Nat
  d : Nat
  e : Nat
  f : Nat
  g : Nat
  h : Nat
deriving Repr, DecidableEq

/-- Initial hash value of SHA-256. -/
def shaInit : Hash8 :=
  ⟨1779033703, 3144134277, 1013904242, 2773480762, 1359893119, 2600822924, 528734635, 1541459225⟩

/-- Big sigma-0 word function. -/
def bigS0 (x : Nat) : Nat := rotr 2 x ^^^ rotr 13 x ^^^ rotr 22 x

/-- Big sigma-1 word function. -/
def bigS1 (x : Nat) : Nat := rotr 6 x ^^^ rotr 11 x ^^^ rotr 25 x

/-- Small sigma-0 word function. -/
def smallS0 (x : Nat) : Nat := rotr 7 x ^^^ rotr 18 x ^^^ (x >>> 3)

/-- Small sigma-1 word function. -/
def smallS1 (x : Nat) : Nat := rotr 17 x ^^^ rotr 19 x ^^^ (x >>> 10)

/-- Choice word function; 32-bit complement taken as xor with `2^32 - 1`. -/
def chW (x y z : Nat) : Nat := (x &&& y) ^^^ ((x ^^^ 4294967295) &&& z)

/-- Majority word function. -/
def majW (x y z : Nat) : Nat := (x &&& y) ^^^ (x &&& z) ^^^ (y &&& z)

/-- One round of the SHA-256 compression function. -/
def shaStep (st : Hash8) (wk : Nat × Nat) : Hash8 :=
  let t1 := (st.h + bigS1 st.e + chW st.e st.f st.g + wk.1 + wk.2) % M32
  let t2 := (bigS0 st.a + majW st.a st.b st.c) % M32
  ⟨(t1 + t2) % M32, st.a, st.b, st.c, (st.d + t1) % M32, st.e, st.f, st.g⟩

/-- Big-endian decoding of bytes into 32-bit words. -/
def bytesToWords : List Nat → List Nat
  | b0 :: b1 :: b2 :: b3 :: rest =>
      (b0 * 16777216 + b1 * 65536 + b2 * 256 + b3) :: bytesToWords rest
  | _ => []

/-- Message-schedule extension: appends `fuel` further words to the schedule. -/
def extendW : Nat → List Nat → List Nat
  | 0, ws => ws
  | n + 1, ws =>
      let len := ws.length
      let w := (smallS1 (ws.getD (len - 2) 0) + ws.getD (len - 7) 0 +
                smallS0 (ws.getD (len - 15) 0) + ws.getD (len - 16) 0) % M32
      extendW n (ws ++ [w])

/-- Compression of one 64-byte block into the running hash state. -/
def shaCompress (st : Hash8) (block : List Nat) : Hash8 :=
  let ws := extendW 48 (bytesToWords block)
  let r := (ws.zip shaK).foldl shaStep st
  ⟨(st.a + r.a) % M32, (st.b + r.b) % M32, (st.c + r.c) % M32, (st.d + r.d) % M32,
   (st.e + r.e) % M32, (st.f + r.f) % M32, (st.g + r.g) % M32, (st.h + r.h) % M32⟩

/-- Big-endian encoding of a length value as eight bytes. -/
def toBE64 (n : Nat) : List Nat :=
  [(n >>> 56) % 256, (n >>> 48) % 256, (n >>> 40) % 256, (n >>> 32) % 256,
   (n >>> 24) % 256, (n >>> 16) % 256, (n >>> 8) % 256, n % 256]

/-- SHA-256 padding: a 0x80 byte, zeros to 56 mod 64, then the bit length. -/
def shaPad (msg : List Nat) : List Nat :=
  let len := msg.length
  let padK := (120 - (len + 1) % 64) % 64
  msg ++ [128] ++ List.replicate padK 0 ++ toBE64 (8 * len)

/-- Splits a byte list into 64-byte blocks; fuel bounds the recursion and is
ample whenever it is at least the number of blocks. -/
def toBlocksFuel : Nat → List Nat → List (List Nat)
  | _, [] => []
  | 0, _ => []
  | fuel + 1, c :: rest => ((c :: rest).take 64) :: toBlocksFuel fuel ((c :: rest).drop 64)

/-- Splits a padded byte list into 64-byte blocks. -/
def toBlocks (l : List Nat) : List (List Nat) := toBlocksFuel l.length l

/-- Big-endian encoding of 32-bit words back into bytes. -/
def wordsToBytes : List Nat → List Nat
  | [] => []
  | w :: rest => ((w >>> 24) % 256) :: ((w >>> 16) % 256) :: ((w >>> 8) % 256) :: (w % 256) :: wordsToBytes rest

/-- SHA-256 digest of a byte list. -/
def sha256 (msg : List Nat) : List Nat :=
  let r := (toBlocks (shaPad msg)).foldl shaCompress shaInit
  wordsToBytes [r.a, r.b, r.c, r.d, r.e, r.f, r.g, r.h]

/-! ### HMAC (model of `hmac.new(key, digestmod=hashlib.sha256)`, RFC 2104) -/

/-- HMAC-SHA256 of a message under a key, both byte lists. -/
def hmacSha256 (key msg : List Nat) : List Nat :=
  let k0 := if 64 < key.length then sha256 key else key
  let kpad := k0 ++ List.replicate (64 - k0.length) 0
  let ip := kpad.map (fun b => b ^^^ 54)
  let op := kpad.map (fun b => b ^^^ 92)
  sha256 (op ++ sha256 (ip ++ msg))

/-! ### UTF-8 and base64url (models of `str.encode` and `base64.urlsafe_b64encode`) -/

/-- UTF-8 encoding of one code point. -/
def utf8Char (n : Nat) : List Nat :=
  if n < 128 then [n]
  else if n < 2048 then [192 ||| (n >>> 6), 128 ||| (n &&& 63)]
  else if n < 65536 then
    [224 ||| (n >>> 12), 128 ||| ((n >>> 6) &&& 63), 128 ||| (n &&& 63)]
  else
    [240 ||| (n >>> 18), 128 ||| ((n >>> 12) &&& 63), 128 ||| ((n >>> 6) &&& 63), 128 ||| (n &&& 63)]

/-- UTF-8 encoding of a string, as produced by Python `str.encode()`. -/
def utf8 (s : String) : List Nat := (s.data.map (fun c => utf8Char c.toNat)).flatten

/-- Alphabet of the URL-safe base64 variant. -/
def b64Alphabet : List Char :=
  "ABCDEFGHIJKLMNOPQRSTUVWXYZabcdefghijklmnopqrstuvwxyz0123456789-_".data

/-- Character for a 6-bit group. -/
def b64c (n : Nat) : Char := b64Alphabet.getD n 'A'

/-- URL-safe base64 encoding of a byte list, three bytes at a time, with
padding as produced by Python `base64.urlsafe_b64encode`. -/
def b64Groups : List Nat → List Char
  | [] => []
  | [a] => [b64c (a >>> 2), b64c ((a % 4) <<< 4), '=', '=']
  | [a, b] => [b64c (a >>> 2), b64c (((a % 4) <<< 4) ||| (b >>> 4)), b64c ((b % 16) <<< 2), '=']
  | a :: b :: c :: rest =>
      b64c (a >>> 2) :: b64c (((a % 4) <<< 4) ||| (b >>> 4)) ::
      b64c (((b % 16) <<< 2) ||| (c >>> 6)) :: b64c (c % 64) :: b64Groups rest

/-- URL-safe base64 encoding of a byte list as a string. -/
def base64urlEncode (bs : List Nat) : String := String.mk (b64Groups bs)

/-! ### The URL signer, `AutoFilm._sign` (src/autofilm.py:194-200) -/

/-- Embedding of `AutoFilm._sign`: an absent (`None`) or empty secret yields
the empty string, otherwise an HMAC-SHA256 token over the resource path with
the fixed expire timestamp `str(0)`. -/
def sign (secret_key : Option String) (data : String) : String :=
  match secret_key with
  | none => ""
  | some s =>
    if s = "" then ""
    else
      let expire_time_stamp : String := "0"
      "?sign=" ++ base64urlEncode (hmacSha256 (utf8 s) (utf8 (data ++ ":" ++ expire_time_stamp))) ++ ":0"

/-! ### Python string primitives used by `_file_process` -/

/-- Python `s.endswith(t)`: `t` is a suffix of `s`. -/
def pyEndsWith (s t : String) : Bool := t.data.isSuffixOf s.data

/-- Python `s.endswith(tuple)`: `s` ends with some element of the tuple. -/
def endsWithAny (s : String) (exts : List String) : Bool := exts.any (fun e => pyEndsWith s e)

/-- ASCII lowering of one character, as Python `str.lower` acts on the ASCII
range relevant to extension matching. -/
def asciiLower (c : Char) : Char :=
  if 65 ≤ c.toNat ∧ c.toNat ≤ 90 then Char.ofNat (c.toNat + 32) else c

/-- Model of Python `str.lower` (character-wise ASCII lowering). -/
def pyLower (s : String) : String := String.mk (s.data.map asciiLower)

/-- Python `s.replace(pat, "")` for a nonempty pattern: removes every
non-overlapping occurrence of `pat`, scanning left to right.  The fuel
argument bounds the recursion; it is ample whenever it is at least the
length of the scanned list. -/
def pyReplaceFuel (pat : List Char) : Nat → List Char → List Char
  | _, [] => []
  | 0, l => l
  | fuel + 1, c :: rest =>
    if pat ≠ [] ∧ pat.isPrefixOf (c :: rest) then
      pyReplaceFuel pat fuel (List.drop (pat.length - 1) rest)
    else
      c :: pyReplaceFuel pat fuel rest

/-- Python `s.replace(pat, "")` on strings (nonempty `pat`). -/
def pyReplace (s pat : String) : String :=
  String.mk (pyReplaceFuel pat.data s.data.length s.data)

/-- Python `s.rstrip("/")`: removes every trailing slash. -/
def rstripSlashes (s : String) : String :=
  String.mk ((s.data.reverse.dropWhile (fun c => c == '/')).reverse)

/-- First index of substring `pat` in `l`, as Python `str.index` locates it
(`none` models the `ValueError` raised when the substring is absent). -/
def findSubIdx (pat : List Char) : List Char → Option Nat
  | [] => none
  | c :: rest =>
    if pat.isPrefixOf (c :: rest) then some 0
    else (findSubIdx pat rest).map (fun i => i + 1)

/-! ### pathlib operations used by `_file_process` -/

/-- Model of `pathlib` `/` (PurePosixPath join): an absolute right operand
replaces the left operand entirely, an empty right operand is ignored. -/
def pathJoin (dir s : String) : String :=
  if s = "" then dir
  else if s.data.head? = some '/' then s
  else dir ++ "/" ++ s

/-- Model of the suffix-stripping half of `Path.with_suffix`: removes the
final `.suffix` of the last path component exactly when CPython recognises
one (a dot at position `i` of the name with `0 < i < len - 1`). -/
def stripLastSuffix (name : List Char) : List Char :=
  let rev := name.reverse
  match rev.findIdx? (fun c => c == '.') with
  | none => name
  | some j => if 0 < j ∧ j < name.length - 1 then (rev.drop (j + 1)).reverse else name

/-- Model of `file_output_path.with_suffix(".strm")` (src/autofilm.py:160):
replaces the suffix of the last component with `.strm`. -/
def withStrm (p : String) : String :=
  let revAll := p.data.reverse
  let revName := revAll.takeWhile (fun c => c ≠ '/')
  let revDir := revAll.drop revName.length
  String.mk (revDir.reverse ++ stripLastSuffix revName.reverse ++ ".strm".data)

/-! ### Output policy, `AutoFilm.__init__` (src/autofilm.py:54-62) -/

/-- Output policy loaded from the configuration document. -/
structure Settings where
  output_dir : String
  library_mode : Bool
  subtitle : Bool
  img : Bool
  nfo : Bool
deriving Repr, DecidableEq

/-- Embedding of the policy part of `AutoFilm.__init__`: when `library_mode`
is set, the subtitle/img/nfo toggles are forced off regardless of the values
the configuration document supplies. -/
def loadSettings (output_dir : String) (library_mode rawSubtitle rawImg rawNfo : Bool) : Settings :=
  if library_mode then ⟨output_dir, true, false, false, false⟩
  else ⟨output_dir, false, rawSubtitle, rawImg, rawNfo⟩

/-! ### Extension tuples (src/autofilm.py:33-36) -/

/-- Video extension tuple `self.video_ext`. -/
def video_ext : List String := ["mp4", "mkv", "flv", "avi", "wmv", "ts", "rmvb", "webm"]

/-- Subtitle extension tuple `self.subtitle_ext`. -/
def subtitle_ext : List String := ["ass", "srt", "ssa", "sub"]

/-- Image extension tuple `self.img_ext`. -/
def img_ext : List String := ["png", "jpg"]

/-- Combined tuple `self.all_ext`. -/
def all_ext : List String := video_ext ++ subtitle_ext ++ img_ext ++ ["nfo"]

/-! ### Classification and materialization, `AutoFilm._file_process`
(src/autofilm.py:130-192) -/

/-- Category of a remote entry. -/
inductive Category
  | video
  | subtitle
  | image
  | metadata
  | ignored
deriving Repr, DecidableEq

/-- Classification of a filename, read off the guard (src/autofilm.py:137)
and the dispatch order of `_file_process` (src/autofilm.py:158-184): the
lowercased name is matched with `endswith` against the video, image,
subtitle and metadata extension tuples, in that order. -/
def classify (name : String) : Category :=
  let n := pyLower name
  if endsWithAny n all_ext = false then .ignored
  else if endsWithAny n video_ext then .video
  else if endsWithAny n img_ext then .image
  else if endsWithAny n subtitle_ext then .subtitle
  else if pyEndsWith n "nfo" then .metadata
  else .ignored

/-- Local output path of an entry (src/autofilm.py:140-144): the bare name
under the output directory in library (flatten) mode, otherwise the remote
path with `base_path` removed by `str.replace`, joined via `pathlib`. -/
def mapOutputPath (cfg : Settings) (basePath : String) (name rpath : String) : String :=
  if cfg.library_mode then pathJoin cfg.output_dir name
  else pathJoin cfg.output_dir (pyReplace rpath basePath)

/-- Resource path used for signing (src/autofilm.py:146-148): the substring
of the entry URL from two characters past the first occurrence of `/d/`;
`none` models the `ValueError` when the marker is absent. -/
def extractAbs (url : String) : Option String :=
  (findSubIdx "/d/".data url.data).map (fun i => String.mk (url.data.drop (i + 2)))

/-- What one materialization task does, before touching disk or network. -/
inductive Action
  | skip
  | writeStrm (path : String) (content : String)
  | download (url : String) (path : String)
deriving Repr, DecidableEq

/-- Whether an action performs an HTTP download. -/
def Action.isDownload : Action → Bool
  | .download _ _ => true
  | _ => false

/-- Embedding of `AutoFilm._file_process` (src/autofilm.py:130-192) as the
action the task takes: unrecognised names return before any path or URL
computation; video names yield an overwriting `.strm` write whose content is
the entry URL with the sign token appended; image/subtitle/nfo names yield
one HTTP GET download when their toggle is on; anything else falls through
doing nothing.  `none` models an exception escaping the task. -/
def fileProcess (cfg : Settings) (basePath : String) (name rpath url : String)
    (token : Option String) : Option Action :=
  if endsWithAny (pyLower name) all_ext = false then some .skip
  else
    let file_output_path := mapOutputPath cfg basePath name rpath
    match extractAbs url with
    | none => none
    | some file_alist_abs_path =>
      let file_download_url := url ++ sign token file_alist_abs_path
      if endsWithAny (pyLower name) video_ext then
        some (.writeStrm (withStrm file_output_path) file_download_url)
      else if endsWithAny (pyLower name) img_ext && cfg.img then
        some (.download file_download_url file_output_path)
      else if endsWithAny (pyLower name) subtitle_ext && cfg.subtitle then
        some (.download file_download_url file_output_path)
      else if pyEndsWith (pyLower name) "nfo" && cfg.nfo then
        some (.download file_download_url file_output_path)
      else some .skip

/-- Content of a local artifact. -/
inductive FileData
  | text (s : String)
  | bytes (b : List Nat)
deriving Repr, DecidableEq

/-- Disk effect of an action given the HTTP response (src/autofilm.py:158-192):
a `.strm` write happens unconditionally (mode "w", overwriting); a download
writes the raw response body exactly when the status is 200 and otherwise
produces nothing — the non-200 case falls through without raising. -/
def runAction (a : Action) (status : Nat) (body : List Nat) : Option (String × FileData) :=
  match a with
  | .skip => none
  | .writeStrm p c => some (p, .text c)
  | .download _ p => if status == 200 then some (p, .bytes body) else none

/-! ### The server loop, `AutoFilm.run` (src/autofilm.py:69-105) -/

/-- One entry of the configured `AlistServerList`, before validation: the
required keys may be missing (`none`), and a present `base_path` key may
still hold a null value. -/
structure RawServer where
  url : Option String
  username : Option String
  password : Option String
  base_path : Option (Option String)
  token : Option String

/-- A validated server configuration. -/
structure ServerCfg where
  url : String
  username : String
  password : String
  base_path : String
  token : Option String
deriving Repr, DecidableEq

/-- Embedding of the per-server field extraction and normalization
(src/autofilm.py:77-92): `none` models the exception that the surrounding
`try` catches when a required key is missing; otherwise the URL loses its
trailing slashes and the base path defaults to `/` and gains a leading
slash. -/
def parseServer (r : RawServer) : Option ServerCfg :=
  match r.url, r.username, r.password, r.base_path with
  | some u, some un, some pw, some bp0 =>
    let u1 := if pyEndsWith u "/" then rstripSlashes u else u
    let bp1 := match bp0 with
      | none => "/"
      | some s => if s = "" then "/" else s
    let bp2 := if bp1.data.head? = some '/' then bp1 else "/" ++ bp1
    some ⟨u1, un, pw, bp2, r.token⟩
  | _, _, _, _ => none

/-- Embedding of the server loop of `AutoFilm.run` (src/autofilm.py:76-105):
a field-extraction failure is caught and the loop continues with the next
entry, but `asyncio.run(self._processer(...))` sits outside the `try`, so an
exception from login or enumeration (the oracle `loginFails`) propagates and
ends the loop.  The result is the list of servers whose batch ran, paired
with whether the run aborted with an exception. -/
def runServers (loginFails : ServerCfg → Bool) : List RawServer → List ServerCfg × Bool
  | [] => ([], false)
  | r :: rest =>
    match parseServer r with
    | none => runServers loginFails rest
    | some cfg =>
      if loginFails cfg then ([], true)
      else
        let res := runServers loginFails rest
        (cfg :: res.1, res.2)

/-! ### Auxiliary definitions for the claims -/

/-- Extension of a filename in the sense of the specification's suffix sets:
the part of the name after its last dot. -/
def dotSuffix (name : String) : String :=
  String.mk ((name.data.reverse.takeWhile (fun c => c != '.')).reverse)

/-- Splits a character list at slashes into its segments (separators
dropped). -/
def splitSeg : List Char -> List (List Char)
  | [] => [[]]
  | c :: rest =>
    if c = '/' then [] :: splitSeg rest
    else match splitSeg rest with
      | [] => [[c]]
      | s :: ss => (c :: s) :: ss

/-- A server entry whose login will fail (see `failsBad`). -/
def badRaw : RawServer := ⟨some "http://bad", some "u1", some "p1", some (some "/a"), none⟩

/-- A well-formed server entry whose login succeeds. -/
def goodRaw : RawServer := ⟨some "http://good", some "u2", some "p2", some (some "/b"), none⟩

/-- A server entry missing the required `username` key. -/
def noUserRaw : RawServer := ⟨some "http://nouser", none, some "p3", some (some "/c"), none⟩

/-- Login oracle under which exactly the server at `http://bad` raises. -/
def failsBad (cfg : ServerCfg) : Bool := cfg.url == "http://bad"

/-! ### Validation of the stdlib models on published test vectors -/

/-- FIPS 180-4 test vector: SHA-256 of "abc". -/
theorem sha256_vector_abc :
    sha256 (utf8 "abc") =
      [0xba, 0x78, 0x16, 0xbf, 0x8f, 0x01, 0xcf, 0xea, 0x41, 0x41, 0x40, 0xde, 0x5d, 0xae, 0x22, 0x23,
       0xb0, 0x03, 0x61, 0xa3, 0x96, 0x17, 0x7a, 0x9c, 0xb4, 0x10, 0xff, 0x61, 0xf2, 0x00, 0x15, 0xad] := by
  decide

/-- FIPS 180-4 test vector: SHA-256 of the empty message. -/
theorem sha256_vector_empty :
    sha256 [] =
      [0xe3, 0xb0, 0xc4, 0x42, 0x98, 0xfc, 0x1c, 0x14, 0x9a, 0xfb, 0xf4, 0xc8, 0x99, 0x6f, 0xb9, 0x24,
       0x27, 0xae, 0x41, 0xe4, 0x64, 0x9b, 0x93, 0x4c, 0xa4, 0x95, 0x99, 0x1b, 0x78, 0x52, 0xb8, 0x55] := by
  decide

set_option maxRecDepth 8000 in
/-- RFC 4231 test case 2: HMAC-SHA256 with key "Jefe". -/
theorem hmac_vector_jefe :
    hmacSha256 (utf8 "Jefe") (utf8 "what do ya want for nothing?") =
      [0x5b, 0xdc, 0xc1, 0x46, 0xbf, 0x60, 0x75, 0x4e, 0x6a, 0x04, 0x24, 0x26, 0x08, 0x95, 0x75, 0xc7,
       0x5a, 0x00, 0x3f, 0x08, 0x9d, 0x27, 0x39, 0x83, 0x9d, 0xec, 0x58, 0xb9, 0x64, 0xec, 0x38, 0x43] := by
  decide

set_option maxRecDepth 8000 in
/-- End-to-end signer check against the value computed by the Python source
for token "k" and resource path "/a". -/
theorem sign_vector_concrete :
    sign (some "k") "/a" = "?sign=16V1bEqWSOoYLjZjfTd6P3G00eFbeWQ1vWQsajb_oWU=:0" := by
  decide


/-! ### Helper lemmas -/

/-- Characters built by `Char.ofNat` from small code points keep their value. -/
theorem toNat_ofNat_small (n : Nat) (h : n < 55296) : (Char.ofNat n).toNat = n := by
  have hv : n.isValidChar := Or.inl h
  simp only [Char.ofNat, dif_pos hv]
  simp [Char.ofNatAux, Char.toNat, UInt32.toNat, UInt32.ofNatCore]

/-- ASCII lowering is idempotent. -/
theorem asciiLower_idem (c : Char) : asciiLower (asciiLower c) = asciiLower c := by
  by_cases h : 65 ≤ c.toNat ∧ c.toNat ≤ 90
  · have h1 : asciiLower c = Char.ofNat (c.toNat + 32) := by
      simp only [asciiLower, if_pos h]
    have ht : (Char.ofNat (c.toNat + 32)).toNat = c.toNat + 32 :=
      toNat_ofNat_small _ (by omega)
    rw [h1]
    simp only [asciiLower, ht]
    rw [if_neg (by omega)]
  · have h1 : asciiLower c = c := by simp only [asciiLower, if_neg h]
    rw [h1, h1]

/-- Python lowering is idempotent. -/
theorem pyLower_idem (s : String) : pyLower (pyLower s) = pyLower s := by
  show String.mk ((s.data.map asciiLower).map asciiLower) = String.mk (s.data.map asciiLower)
  rw [List.map_map]
  exact congrArg String.mk (List.map_congr_left (fun c _ => asciiLower_idem c))

/-- The combined extension tuple matches exactly when one of its four parts
matches. -/
theorem endsWithAny_all (n : String) :
    endsWithAny n all_ext =
      (endsWithAny n video_ext || endsWithAny n subtitle_ext || endsWithAny n img_ext ||
        pyEndsWith n "nfo") := by
  simp [endsWithAny, all_ext, List.any_append, Bool.or_assoc]

/-- Characterization of `classify` by the `endswith` tests of the dispatch,
in dispatch order. -/
theorem classify_characterization (name : String) :
    (classify name = Category.video ↔ endsWithAny (pyLower name) video_ext = true) ∧
    (classify name = Category.image ↔
      (endsWithAny (pyLower name) video_ext = false ∧
       endsWithAny (pyLower name) img_ext = true)) ∧
    (classify name = Category.subtitle ↔
      (endsWithAny (pyLower name) video_ext = false ∧
       endsWithAny (pyLower name) img_ext = false ∧
       endsWithAny (pyLower name) subtitle_ext = true)) ∧
    (classify name = Category.metadata ↔
      (endsWithAny (pyLower name) video_ext = false ∧
       endsWithAny (pyLower name) img_ext = false ∧
       endsWithAny (pyLower name) subtitle_ext = false ∧
       pyEndsWith (pyLower name) "nfo" = true)) ∧
    (classify name = Category.ignored ↔ endsWithAny (pyLower name) all_ext = false) := by
  have hall := endsWithAny_all (pyLower name)
  cases hv : endsWithAny (pyLower name) video_ext <;>
    cases hi : endsWithAny (pyLower name) img_ext <;>
      cases hs : endsWithAny (pyLower name) subtitle_ext <;>
        cases hn : pyEndsWith (pyLower name) "nfo" <;>
          simp [classify, hall, hv, hi, hs, hn]

/-- Unrecognised names make `_file_process` return before the path and URL
computations. -/
theorem fileProcess_skip_of_unmatched (cfg : Settings) (basePath name rpath url : String)
    (token : Option String) (h : endsWithAny (pyLower name) all_ext = false) :
    fileProcess cfg basePath name rpath url token = some Action.skip := by
  simp [fileProcess, h]

/-- `classify` only looks at the lowercased name. -/
theorem classify_pyLower (name : String) : classify (pyLower name) = classify name := by
  simp only [classify, pyLower_idem]

/-- Removing slashes via Python replace equals filtering them out. -/
theorem pyReplaceFuel_slash (fuel : Nat) :
    ∀ l : List Char, l.length ≤ fuel →
      pyReplaceFuel ['/'] fuel l = l.filter (fun c => c != '/') := by
  induction fuel with
  | zero =>
    intro l h
    cases l with
    | nil => rfl
    | cons c rest => simp at h
  | succ n ih =>
    intro l h
    cases l with
    | nil => rfl
    | cons c rest =>
      have hrest : rest.length ≤ n := by
        simp [List.length_cons] at h
        omega
      by_cases hc : c = '/'
      · subst hc
        have hpre : (['/'] : List Char).isPrefixOf ('/' :: rest) = true := by
          simp [List.isPrefixOf]
        simp [pyReplaceFuel, hpre, ih rest hrest]
      · have hpre : (['/'] : List Char).isPrefixOf (c :: rest) = false := by
          simp [List.isPrefixOf]
          exact fun heq => hc heq.symm
        simp [pyReplaceFuel, hpre, hc, ih rest hrest]

/-- Python replace of "/" on a string filters out every slash. -/
theorem pyReplace_slash (s : String) :
    pyReplace s "/" = String.mk (s.data.filter (fun c => c != '/')) :=
  congrArg String.mk (pyReplaceFuel_slash s.data.length s.data (Nat.le_refl _))

/-- Concatenating the segments of a character list recovers the list with its
slashes removed. -/
theorem splitSeg_flatten (l : List Char) :
    (splitSeg l).flatten = l.filter (fun c => c != '/') := by
  induction l with
  | nil => rfl
  | cons c rest ih =>
    by_cases hc : c = '/'
    · subst hc
      simp [splitSeg, ih]
    · rcases hs : splitSeg rest with _ | ⟨s, ss⟩
      · rw [hs] at ih
        simp only [List.flatten_nil] at ih
        simp [splitSeg, hc, hs, ← ih]
      · rw [hs] at ih
        simp only [List.flatten_cons] at ih
        simp [splitSeg, hc, hs, List.flatten_cons, ih]

/-! ### Claim theorems -/

/-- C1, evaluation of the code at the failing input: in mirrored mode with
`output_dir = "/out"` and `base_path = "/x"`, the entry at
`/x/sub/dir/movie.mkv` is written to `/sub/dir/movie.strm` — the stripped
remainder keeps its leading slash, so the pathlib join discards `output_dir`
instead of producing `/out/sub/dir/movie.strm`; moreover `str.replace`
removes non-leading occurrences of the base path as well. -/
theorem c1_mirrored_path_eval :
    mapOutputPath ⟨"/out", false, false, false, false⟩ "/x" "movie.mkv" "/x/sub/dir/movie.mkv"
      = "/sub/dir/movie.mkv" ∧
    fileProcess ⟨"/out", false, false, false, false⟩ "/x" "movie.mkv" "/x/sub/dir/movie.mkv"
        "http://h/d/x/sub/dir/movie.mkv" none
      = some (Action.writeStrm "/sub/dir/movie.strm" "http://h/d/x/sub/dir/movie.mkv") ∧
    pyReplace "/x/ab/x/movie.mkv" "/x" = "/ab/movie.mkv" ∧
    ("/sub/dir/movie.strm" : String) ≠ "/out/sub/dir/movie.strm" := by
  decide

/-- C2: `sign` returns the empty string for an absent or empty secret, and
otherwise `"?sign=" ++ base64url(HMAC-SHA256(secret, path ++ ":0")) ++ ":0"`. -/
theorem c2_sign_contract (s p : String) :
    sign none p = "" ∧
    sign (some "") p = "" ∧
    (s ≠ "" →
      sign (some s) p =
        "?sign=" ++ base64urlEncode (hmacSha256 (utf8 s) (utf8 (p ++ ":0"))) ++ ":0") := by
  refine ⟨rfl, by simp [sign], fun h => ?_⟩
  have hp : p ++ ":" ++ "0" = p ++ ":0" := by
    cases p with
    | mk l =>
      show String.mk ((l ++ [':']) ++ ['0']) = String.mk (l ++ [':', '0'])
      rw [List.append_assoc]
      rfl
  simp only [sign, if_neg h]
  rw [hp]

/-- Witness for C2 at the concrete secret "k" and path "/a". -/
theorem c2_sign_contract_witness :
    sign (some "k") "/a" =
      "?sign=" ++ base64urlEncode (hmacSha256 (utf8 "k") (utf8 ("/a" ++ ":0"))) ++ ":0" :=
  (c2_sign_contract "k" "/a").2.2 (by decide)

/-- C3, counterexample: the filename `a.xts` has suffix `xts`, which lies in
none of the extension sets, yet the code classifies it as video (its
lowercase form ends with the video extension string `ts`), not ignored. -/
theorem c3_suffix_counterexample :
    classify "a.xts" = Category.video ∧
    dotSuffix (pyLower "a.xts") = "xts" ∧
    all_ext.contains "xts" = false := by
  decide

/-- C3 as amended: classification is decided by case-insensitive `endswith`
tests against the fixed extension strings, tried in the order video, image,
subtitle, metadata; a filename whose lowercase form ends with none of them
is ignored and skipped before any path or URL computation. -/
theorem c3_classify_by_endswith (cfg : Settings) (basePath name rpath url : String)
    (token : Option String) :
    (classify name = Category.video ↔ endsWithAny (pyLower name) video_ext = true) ∧
    (classify name = Category.image ↔
      (endsWithAny (pyLower name) video_ext = false ∧
       endsWithAny (pyLower name) img_ext = true)) ∧
    (classify name = Category.subtitle ↔
      (endsWithAny (pyLower name) video_ext = false ∧
       endsWithAny (pyLower name) img_ext = false ∧
       endsWithAny (pyLower name) subtitle_ext = true)) ∧
    (classify name = Category.metadata ↔
      (endsWithAny (pyLower name) video_ext = false ∧
       endsWithAny (pyLower name) img_ext = false ∧
       endsWithAny (pyLower name) subtitle_ext = false ∧
       pyEndsWith (pyLower name) "nfo" = true)) ∧
    (classify name = Category.ignored →
      fileProcess cfg basePath name rpath url token = some Action.skip) := by
  obtain ⟨h1, h2, h3, h4, h5⟩ := classify_characterization name
  exact ⟨h1, h2, h3, h4,
    fun h => fileProcess_skip_of_unmatched cfg basePath name rpath url token (h5.mp h)⟩

/-- Witness for C3 as amended: `readme.txt` is ignored and skipped even
though its entry URL contains no download marker, showing the return happens
before the URL computation. -/
theorem c3_classify_by_endswith_witness :
    fileProcess ⟨"/out", false, true, true, true⟩ "/" "readme.txt" "/readme.txt" "u" none
      = some Action.skip :=
  (c3_classify_by_endswith ⟨"/out", false, true, true, true⟩ "/" "readme.txt" "/readme.txt"
    "u" none).2.2.2.2 (by decide)

/-- C4: an entry whose lowercased name ends with a video extension is always
materialized — whatever the policy toggles — as an overwriting write of the
mapped output path with its suffix replaced by `.strm`, whose content is
exactly the entry URL with the sign token appended (nothing else), and the
write does not depend on any HTTP response. -/
theorem c4_video_pointer_file (cfg : Settings) (basePath name rpath url : String)
    (token : Option String) (pabs : String)
    (hv : endsWithAny (pyLower name) video_ext = true)
    (hd : extractAbs url = some pabs) :
    fileProcess cfg basePath name rpath url token =
      some (Action.writeStrm (withStrm (mapOutputPath cfg basePath name rpath))
            (url ++ sign token pabs)) ∧
    (∀ status body,
      runAction (Action.writeStrm (withStrm (mapOutputPath cfg basePath name rpath))
          (url ++ sign token pabs)) status body =
        some (withStrm (mapOutputPath cfg basePath name rpath),
              FileData.text (url ++ sign token pabs))) := by
  have hall : endsWithAny (pyLower name) all_ext = true := by
    rw [endsWithAny_all, hv]
    rfl
  exact ⟨by simp [fileProcess, hall, hd, hv], fun status body => rfl⟩

/-- Witness for C4 at a concrete mixed-case video entry. -/
theorem c4_video_pointer_file_witness :
    fileProcess ⟨"/out", false, false, false, false⟩ "/a" "Movie.MKV" "/a/Movie.MKV"
        "http://h/d/a/Movie.MKV" none =
      some (Action.writeStrm
        (withStrm (mapOutputPath ⟨"/out", false, false, false, false⟩ "/a" "Movie.MKV" "/a/Movie.MKV"))
        ("http://h/d/a/Movie.MKV" ++ sign none "/a/Movie.MKV")) :=
  (c4_video_pointer_file ⟨"/out", false, false, false, false⟩ "/a" "Movie.MKV" "/a/Movie.MKV"
    "http://h/d/a/Movie.MKV" none "/a/Movie.MKV" (by decide) (by decide)).1

/-- C5, counterexample: with a first server whose login raises and a second,
well-formed server whose login would succeed, the run aborts and the second
server is never processed — refuting the claim that an authentication
failure only skips the failing server. -/
theorem c5_abort_counterexample :
    parseServer goodRaw = some ⟨"http://good", "u2", "p2", "/b", none⟩ ∧
    failsBad ⟨"http://good", "u2", "p2", "/b", none⟩ = false ∧
    runServers failsBad [badRaw, goodRaw] = ([], true) := by
  decide

/-- C5 as amended: a server entry whose required fields fail to extract is
skipped individually and its siblings are still processed, but a login or
enumeration failure propagates out of the loop, so that server and every
subsequent server go unprocessed. -/
theorem c5_server_loop (loginFails : ServerCfg → Bool) (r : RawServer)
    (rest : List RawServer) :
    (parseServer r = none →
      runServers loginFails (r :: rest) = runServers loginFails rest) ∧
    (∀ cfg, parseServer r = some cfg → loginFails cfg = true →
      runServers loginFails (r :: rest) = ([], true)) ∧
    (∀ cfg, parseServer r = some cfg → loginFails cfg = false →
      runServers loginFails (r :: rest) =
        (cfg :: (runServers loginFails rest).1, (runServers loginFails rest).2)) := by
  refine ⟨fun h => by simp [runServers, h], fun cfg h hf => by simp [runServers, h, hf],
    fun cfg h hf => by simp [runServers, h, hf]⟩

/-- Witness for C5 as amended: a server entry missing `username` does not
prevent processing of the next server in the list. -/
theorem c5_server_loop_witness :
    runServers failsBad [noUserRaw, goodRaw] = runServers failsBad [goodRaw] :=
  (c5_server_loop failsBad noUserRaw [goodRaw]).1 (by decide)

/-- C6: an image, subtitle or metadata entry whose policy toggle is on
yields exactly one HTTP GET of the signed download URL; a 200 response
writes the raw body to the mapped path, any other status produces no file
and raises nothing. -/
theorem c6_download_policy (cfg : Settings) (basePath name rpath url : String)
    (token : Option String) (pabs : String)
    (hd : extractAbs url = some pabs)
    (h : (classify name = Category.image ∧ cfg.img = true) ∨
         (classify name = Category.subtitle ∧ cfg.subtitle = true) ∨
         (classify name = Category.metadata ∧ cfg.nfo = true)) :
    fileProcess cfg basePath name rpath url token =
      some (Action.download (url ++ sign token pabs) (mapOutputPath cfg basePath name rpath)) ∧
    (∀ body,
      runAction (Action.download (url ++ sign token pabs) (mapOutputPath cfg basePath name rpath))
          200 body = some (mapOutputPath cfg basePath name rpath, FileData.bytes body)) ∧
    (∀ status body, status ≠ 200 →
      runAction (Action.download (url ++ sign token pabs) (mapOutputPath cfg basePath name rpath))
          status body = none) := by
  obtain ⟨-, h2, h3, h4, -⟩ := classify_characterization name
  refine ⟨?_, fun body => rfl, fun status body hne => by simp [runAction, hne]⟩
  rcases h with ⟨hcat, ht⟩ | ⟨hcat, ht⟩ | ⟨hcat, ht⟩
  · obtain ⟨hv, hi⟩ := h2.mp hcat
    have hall : endsWithAny (pyLower name) all_ext = true := by
      rw [endsWithAny_all, hi]
      simp
    simp [fileProcess, hall, hd, hv, hi, ht]
  · obtain ⟨hv, hi, hs⟩ := h3.mp hcat
    have hall : endsWithAny (pyLower name) all_ext = true := by
      rw [endsWithAny_all, hs]
      simp
    simp [fileProcess, hall, hd, hv, hi, hs, ht]
  · obtain ⟨hv, hi, hs, hn⟩ := h4.mp hcat
    have hall : endsWithAny (pyLower name) all_ext = true := by
      rw [endsWithAny_all, hn]
      simp
    simp [fileProcess, hall, hd, hv, hi, hs, hn, ht]

/-- Witness for C6 at a concrete subtitle entry with the toggle on. -/
theorem c6_download_policy_witness :
    fileProcess ⟨"/out", false, true, false, false⟩ "/a" "show.srt" "/a/show.srt"
        "http://h/d/a/show.srt" none =
      some (Action.download ("http://h/d/a/show.srt" ++ sign none "/a/show.srt")
        (mapOutputPath ⟨"/out", false, true, false, false⟩ "/a" "show.srt" "/a/show.srt")) ∧
    runAction (Action.download ("http://h/d/a/show.srt" ++ sign none "/a/show.srt")
        (mapOutputPath ⟨"/out", false, true, false, false⟩ "/a" "show.srt" "/a/show.srt"))
        404 [1, 2, 3] = none :=
  ⟨(c6_download_policy ⟨"/out", false, true, false, false⟩ "/a" "show.srt" "/a/show.srt"
      "http://h/d/a/show.srt" none "/a/show.srt" (by decide)
      (Or.inr (Or.inl ⟨by decide, rfl⟩))).1,
   (c6_download_policy ⟨"/out", false, true, false, false⟩ "/a" "show.srt" "/a/show.srt"
      "http://h/d/a/show.srt" none "/a/show.srt" (by decide)
      (Or.inr (Or.inl ⟨by decide, rfl⟩))).2.2 404 [1, 2, 3] (by decide)⟩

/-- C8: whatever subtitle/img/nfo values the configuration document
supplies, loading it with `library_mode` set forces all three toggles off,
and a run under the loaded settings never performs a download — only
pointer-file writes and skips. -/
theorem c8_library_mode_invariant (outDir : String) (rawSub rawImg rawNfo : Bool)
    (basePath name rpath url : String) (token : Option String) :
    (loadSettings outDir true rawSub rawImg rawNfo).subtitle = false ∧
    (loadSettings outDir true rawSub rawImg rawNfo).img = false ∧
    (loadSettings outDir true rawSub rawImg rawNfo).nfo = false ∧
    Option.all (fun a => !a.isDownload)
      (fileProcess (loadSettings outDir true rawSub rawImg rawNfo) basePath name rpath url
        token) = true := by
  refine ⟨rfl, rfl, rfl, ?_⟩
  by_cases hall : endsWithAny (pyLower name) all_ext = false
  · simp [fileProcess, hall, Action.isDownload]
  · rcases hx : extractAbs url with - | pabs
    · simp [fileProcess, hall, hx]
    · cases hv : endsWithAny (pyLower name) video_ext <;>
        simp [fileProcess, hall, hx, hv, loadSettings, Action.isDownload]

/-- C9: classification is case-insensitive — classifying a name and
classifying its lowercased form agree, and in particular `A.MP4` and `a.mp4`
are both video. -/
theorem c9_classify_case_insensitive (name : String) :
    classify name = classify (pyLower name) ∧
    classify "A.MP4" = Category.video ∧
    classify "a.mp4" = Category.video :=
  ⟨(classify_pyLower name).symm, by decide, by decide⟩

/-- C10: when the base remote path is the default `/` — which `parseServer`
produces for an absent or empty configured `base_path` — mirrored mode
removes every slash of the remote absolute path, so the local output path is
the output directory joined with the concatenation of all path segments into
a single filename. -/
theorem c10_root_base_collapses (outDir : String) (sb im nf : Bool) (name rpath : String)
    (h : rpath.data.filter (fun c => c != '/') ≠ []) :
    mapOutputPath ⟨outDir, false, sb, im, nf⟩ "/" name rpath =
      outDir ++ "/" ++ String.mk ((splitSeg rpath.data).flatten) ∧
    (∀ (u un pw : String) (tok : Option String),
      (parseServer ⟨some u, some un, some pw, some none, tok⟩).map ServerCfg.base_path
        = some "/" ∧
      (parseServer ⟨some u, some un, some pw, some (some ""), tok⟩).map ServerCfg.base_path
        = some "/") := by
  constructor
  · have hrep := pyReplace_slash rpath
    have hjoin := (splitSeg_flatten rpath.data).symm
    have hne : ¬ (String.mk (rpath.data.filter (fun c => c != '/')) = "") := by
      intro heq
      exact h (congrArg String.data heq)
    have hh : ¬ ((String.mk (rpath.data.filter (fun c => c != '/'))).data.head? = some '/') := by
      cases hfl : rpath.data.filter (fun c => c != '/') with
      | nil => simp [hfl]
      | cons a as =>
        have ha : a ∈ rpath.data.filter (fun c => c != '/') := by
          rw [hfl]
          exact List.mem_cons_self a as
        have hpa : (a != '/') = true := (List.mem_filter.mp ha).2
        simp only [hfl, List.head?_cons]
        intro heq
        have : a = '/' := by injection heq
        simp [this] at hpa
    simp only [mapOutputPath]
    rw [if_neg (by simp)]
    rw [hrep]
    simp only [pathJoin]
    rw [if_neg hne, if_neg hh, hjoin]
  · intro u un pw tok
    constructor <;> simp [parseServer]

/-- Witness for C10: the entry `/a/b/c.mkv` under base path `/` maps to the
collapsed filename `abc.mkv` under the output directory. -/
theorem c10_root_base_collapses_witness :
    mapOutputPath ⟨"/out", false, false, false, false⟩ "/" "c.mkv" "/a/b/c.mkv" =
      "/out" ++ "/" ++ String.mk ((splitSeg "/a/b/c.mkv".data).flatten) :=
  (c10_root_base_collapses "/out" false false false "c.mkv" "/a/b/c.mkv" (by decide)).1

end AutoFilm
